import Mathlib

/-!
Shallow embedding of the voice_bot repository's real-time turn-taking core:
the VAD endpointing loop of `AudioRecorder.record` (src/audio/recorder.py),
the wake-word listener loop of `WakeWordDetector` (src/audio/wake_word.py),
the streaming sentence splitter and stop of `TextToSpeech` (src/audio/tts.py),
the speech-dispatch and stop of `VoiceAssistant` (src/assistant.py), and
`ConversationManager.messages_for_llm` (src/ai/conversation.py).
-/

namespace VoiceBot

/-- One microphone frame as seen by the audio callback of
`AudioRecorder.record`: `data` abstracts the PCM bytes (`audio_bytes`)
appended to the buffer, `vad` the result of `webrtcvad.Vad.is_speech`
(`none` when the classifier raises), `level` the mean absolute sample
level `np.abs(indata).mean()`. -/
structure Frame where
  data : Nat
  vad : Option Bool
  level : ℚ
deriving DecidableEq

/-- Per-frame speech/silence classification (recorder.py lines 154-158): the
VAD verdict, falling back to the energy threshold `level > 0.01` when the
classifier raised an exception. -/
def classify (f : Frame) : Bool :=
  match f.vad with
  | some b => b
  | none => decide ((1 : ℚ) / 100 < f.level)

/-- Endpointing thresholds of one `record` call, in frames. -/
structure RecConfig where
  framesForSilence : Nat
  maxFrames : Nat
deriving DecidableEq

/-- Python `int(...)` applied to a nonnegative float value, modelled on ℚ
(truncation; equals floor for the nonnegative values used here). -/
def pyInt (q : ℚ) : Nat := q.floor.toNat

/-- Threshold computation of recorder.py lines 129-130:
`frames_for_silence = int(silence_duration * 1000 / frame_duration_ms)` and
`max_frames = int(max_duration * 1000 / frame_duration_ms)`. -/
def mkRecConfig (silenceDuration maxDuration : ℚ) (frameDurationMs : Nat) : RecConfig :=
  { framesForSilence := pyInt (silenceDuration * 1000 / (frameDurationMs : ℚ))
    maxFrames := pyInt (maxDuration * 1000 / (frameDurationMs : ℚ)) }

/-- State visible to the audio callback while one `record` call runs: the
shared `self._is_recording` and `self._audio_buffer` plus the closed-over
locals `speech_started`, `silence_frames`, `frame_count`. -/
structure RecState where
  isRecording : Bool
  buffer : List Nat
  speechStarted : Bool
  silenceFrames : Nat
  frameCount : Nat
deriving DecidableEq

/-- One invocation of `audio_callback` (recorder.py lines 136-179). A frame
arriving after `_is_recording` was cleared raises `sd.CallbackAbort` and
changes nothing; otherwise: a speech frame marks the start, resets the
silence run and is appended; a silence frame after speech start is appended
and extends the silence run, stopping the recording when the run reaches
`frames_for_silence`; a silence frame before speech start is discarded; in
every case `frame_count` is incremented and the recording is force-stopped
when it reaches `max_frames`. -/
def stepFrame (cfg : RecConfig) (s : RecState) (f : Frame) : RecState :=
  if s.isRecording then
    let s1 :=
      if classify f then
        { s with speechStarted := true, silenceFrames := 0, buffer := s.buffer ++ [f.data] }
      else if s.speechStarted then
        { s with silenceFrames := s.silenceFrames + 1, buffer := s.buffer ++ [f.data],
                 isRecording := if cfg.framesForSilence ≤ s.silenceFrames + 1 then false
                                else s.isRecording }
      else s
    { s1 with frameCount := s1.frameCount + 1,
              isRecording := if cfg.maxFrames ≤ s1.frameCount + 1 then false
                             else s1.isRecording }
  else s

/-- The callback folded over the frame sequence the microphone delivers. -/
def processFrames (cfg : RecConfig) (s : RecState) (frames : List Frame) : RecState :=
  frames.foldl (stepFrame cfg) s

/-- `AudioRecorder` instance state across `record` calls: `_is_recording`
and `_audio_buffer`. -/
structure RecorderState where
  isRecording : Bool
  audioBuffer : List Nat
deriving DecidableEq

/-- Outcome of one `AudioRecorder.record` call: the returned segment
(`none` models returning `None`), the recorder state on exit, and whether
an input stream (frame source) was opened by this call. -/
structure RecordResult where
  segment : Option (List Nat)
  recorder : RecorderState
  openedStream : Bool
deriving DecidableEq

/-- Initial callback state of one `record` call: `_is_recording` set, the
buffer reset, no speech yet, counters at zero (recorder.py lines 123-131). -/
def initialRecState : RecState :=
  { isRecording := true, buffer := [], speechStarted := false,
    silenceFrames := 0, frameCount := 0 }

/-- `AudioRecorder.record` (recorder.py lines 102-207) driven by the frame
sequence the microphone would deliver: the entry guard (lines 119-121)
returns `None` with everything untouched when a recording is already in
progress; otherwise the buffer is reset, the callback folds over the frames
and, at close, an empty buffer yields `None` while a non-empty one is
returned as the segment (lines 196-201); `finally` clears `_is_recording`. -/
def record (pre : RecorderState) (cfg : RecConfig) (frames : List Frame) : RecordResult :=
  if pre.isRecording then
    { segment := none, recorder := pre, openedStream := false }
  else
    { segment := if (processFrames cfg initialRecState frames).buffer.isEmpty then none
                 else some (processFrames cfg initialRecState frames).buffer
      recorder := { isRecording := false
                    audioBuffer := (processFrames cfg initialRecState frames).buffer }
      openedStream := true }

/-- One frame of the wake-word listener's input stream
(`WakeWordDetector._listen_loop`, wake_word.py lines 133-163): whether
`_stop_event` was set when the callback fired, and the result of
`porcupine.process` on the frame (`keyword_index`, nonnegative on a
positive keyword match). -/
structure WakeFrame where
  stopSet : Bool
  keywordIndex : Int
deriving DecidableEq

/-- Number of times the listener loop's audio callback invokes the
activation callback over the given frame stream (wake_word.py lines
139-152): a set stop event raises `sd.CallbackAbort`, ending the stream;
otherwise every frame whose keyword index is nonnegative invokes
`self._callback()`, and scanning simply continues with the next frame. -/
def listenLoopActivations : List WakeFrame → Nat
  | [] => 0
  | f :: rest =>
    if f.stopSet then 0
    else (if 0 ≤ f.keywordIndex then 1 else 0) + listenLoopActivations rest

/-- Playback-relevant state of a `TextToSpeech` instance: the shared
`_stop_event`, whether `pygame.mixer.music` is busy, and `_is_speaking`. -/
structure TTSState where
  stopEventSet : Bool
  musicPlaying : Bool
  isSpeaking : Bool
deriving DecidableEq

/-- Embeds `TextToSpeech.stop` (tts.py lines 226-236): sets the stop event,
stops pygame playback (a no-op error is swallowed when nothing plays), and
clears `_is_speaking`. -/
def ttsStop (_s : TTSState) : TTSState :=
  { stopEventSet := true, musicPlaying := false, isSpeaking := false }

/-- Text as the list of its characters (Python `str`). -/
abbrev Text := List Char

/-- Python `str.lower` (ASCII case mapping suffices for the command lists
compared against, which are already lower-case). -/
def pyLower (t : Text) : Text := t.map Char.toLower

/-- Python `str.strip`: whitespace removed from both ends. -/
def pyStrip (t : Text) : Text :=
  ((t.dropWhile Char.isWhitespace).reverse.dropWhile Char.isWhitespace).reverse

/-- The exit-command list of `VoiceAssistant._process_speech`
(assistant.py line 132). -/
def exitCommands : List Text :=
  ["exit".data, "quit".data, "stop".data, "goodbye".data, "bye".data,
   "arrête".data, "au revoir".data]

/-- The stop-speaking command list of `VoiceAssistant._process_speech`
(assistant.py line 139). -/
def stopSpeakingCommands : List Text :=
  ["stop".data, "arrête".data, "tais-toi".data, "shut up".data]

/-- Outcome of the transcript dispatch in `VoiceAssistant._process_speech`. -/
inductive SpeechDecision where
  | tooShort
  | exitAssistant
  | stopSpeaking
  | respond
deriving DecidableEq

/-- Dispatch of `VoiceAssistant._process_speech` on the transcribed text
(assistant.py lines 125-141): empty or too-short text is dropped; then the
lower-cased, stripped text is matched first against the exit-command list
(goodbye and `self.stop()`), then against the stop-speaking list
(`self.tts.stop()` only); anything else goes to the LLM. -/
def processSpeechDecision (text : Text) : SpeechDecision :=
  if text.isEmpty || (pyStrip text).length < 2 then .tooShort
  else if exitCommands.contains (pyStrip (pyLower text)) then .exitAssistant
  else if stopSpeakingCommands.contains (pyStrip (pyLower text)) then .stopSpeaking
  else .respond

/-- Control state of the `VoiceAssistant` orchestrator: `_running` (the
`run_async` main loop runs while it is set), the TTS playback state, and
whether the wake-word listener is active. -/
structure AssistantState where
  running : Bool
  tts : TTSState
  wakeListening : Bool
deriving DecidableEq

/-- Embeds `VoiceAssistant.stop` (assistant.py lines 227-233): clears
`_running`, stops TTS, and stops the wake-word listener. -/
def assistantStop (s : AssistantState) : AssistantState :=
  { running := false, tts := ttsStop s.tts, wakeListening := false }

/-- Effect of one dispatch outcome on the assistant control state
(assistant.py lines 131-141): the exit branch says goodbye and calls
`self.stop()`; the stop-speaking branch calls `self.tts.stop()` only and
returns; the too-short branch returns; the respond branch continues into
the LLM/TTS pipeline without touching these control flags. -/
def applyDecision (d : SpeechDecision) (s : AssistantState) : AssistantState :=
  match d with
  | .exitAssistant => assistantStop s
  | .stopSpeaking => { s with tts := ttsStop s.tts }
  | _ => s

/-- Sentence-terminating characters of `TextToSpeech.speak_streaming`
(tts.py line 204). -/
def sentenceEndings : List Char := ['.', '!', '?', ';']

/-- Whether a character terminates a sentence. -/
def isEnding (c : Char) : Bool := sentenceEndings.contains c

/-- Index of the first sentence-terminating character of the buffer, as the
`for i, char in enumerate(buffer)` scan of tts.py lines 210-211 finds it. -/
def findEnding : Text → Option Nat
  | [] => none
  | c :: t => if isEnding c then some 0 else (findEnding t).map (· + 1)

/-- Loop of `TextToSpeech.speak_streaming` (tts.py lines 203-224) with the
texts handed to `speak` collected in order: each arriving chunk is appended
to the buffer; if the buffer now contains a terminator, the prefix up to and
including the first one is stripped and spoken and the rest kept (at most
one sentence per chunk, then `break`); after the stream ends the stripped
remainder is spoken when non-empty. -/
def speakStreamingFrom (buf : Text) : List Text → List Text
  | [] => if (pyStrip buf).isEmpty then [] else [pyStrip buf]
  | chunk :: rest =>
    match findEnding (buf ++ chunk) with
    | none => speakStreamingFrom (buf ++ chunk) rest
    | some i =>
      (if (pyStrip ((buf ++ chunk).take (i + 1))).isEmpty then []
       else [pyStrip ((buf ++ chunk).take (i + 1))]) ++
        speakStreamingFrom ((buf ++ chunk).drop (i + 1)) rest

/-- Sentences spoken by `TextToSpeech.speak_streaming` for a stream of text
chunks, in the order they are handed to playback. -/
def speak_streaming (chunks : List Text) : List Text := speakStreamingFrom [] chunks

/-- Decomposition of the streamed text induced by the `speak_streaming`
loop: the raw (unstripped) prefixes cut at each detected sentence boundary,
together with the end-of-stream remainder buffer. -/
def streamPieces (buf : Text) : List Text → List Text × Text
  | [] => ([], buf)
  | chunk :: rest =>
    match findEnding (buf ++ chunk) with
    | none => streamPieces (buf ++ chunk) rest
    | some i =>
      ((buf ++ chunk).take (i + 1) :: (streamPieces ((buf ++ chunk).drop (i + 1)) rest).1,
       (streamPieces ((buf ++ chunk).drop (i + 1)) rest).2)

/-- Role tag of a conversation message. -/
inductive Role where
  | system
  | user
  | assistant
deriving DecidableEq

/-- One entry of `ConversationManager._messages` (timestamps omitted: they
are stripped before the list is used). -/
structure Message where
  role : Role
  content : Text
deriving DecidableEq

/-- Python list slice `l[-k:]` as used in conversation.py line 86: the
whole list when `k = 0`, otherwise the last `min k (length l)` elements. -/
def pySliceLast {α : Type} (k : Nat) (l : List α) : List α :=
  if k = 0 then l else l.drop (l.length - k)

/-- Message list of a `ConversationManager` constructed with the given
system prompt after a sequence of `add_user_message` /
`add_assistant_message` calls (conversation.py lines 53-60, 98-120): the
system message when the prompt is non-empty, followed by the added
messages in insertion order. -/
def conversationMessages (sysPrompt : Text) (adds : List Message) : List Message :=
  (if sysPrompt.isEmpty then [] else [{ role := .system, content := sysPrompt }]) ++ adds

/-- Embeds `ConversationManager.messages_for_llm` (conversation.py lines
79-86): the whole list when it holds at most `max_history + 1` messages,
otherwise the first message followed by the Python slice
`_messages[-max_history:]`. -/
def messages_for_llm (maxHistory : Nat) (msgs : List Message) : List Message :=
  if msgs.length ≤ maxHistory + 1 then msgs
  else msgs.take 1 ++ pySliceLast maxHistory msgs

end VoiceBot

namespace VoiceBot

/-- Generic invariant lemma for the callback fold: a property preserved by
every step over a frame of the list is preserved by the whole fold. -/
theorem processFrames_inv (cfg : RecConfig) (P : RecState → Prop) :
    ∀ (frames : List Frame) (s : RecState),
      (∀ t f, f ∈ frames → P t → P (stepFrame cfg t f)) → P s →
      P (processFrames cfg s frames) := by
  intro frames
  induction frames with
  | nil => intro s _ hs; simpa [processFrames] using hs
  | cons f rest ih =>
    intro s hstep hs
    have h1 : P (stepFrame cfg s f) := hstep s f (by simp) hs
    have h2 := ih (stepFrame cfg s f)
      (fun t g hg ht => hstep t g (by simp [hg]) ht) h1
    simpa [processFrames, List.foldl_cons] using h2

/-- Evaluation of the thresholds at the configuration the assistant runs
with: 0.9 s silence threshold and 15 s maximum over 30 ms frames give 30
silence frames and 500 total frames. -/
theorem mkRecConfig_eval :
    mkRecConfig (9 / 10) 15 30 = { framesForSilence := 30, maxFrames := 500 } := by
  norm_num [mkRecConfig, pyInt]
  exact ⟨rfl, rfl⟩

/-- Evaluation of one callback step on a frame arriving after the recording
stopped: `sd.CallbackAbort` is raised and nothing changes. -/
theorem stepFrame_not_recording (cfg : RecConfig) (t : RecState) (f : Frame)
    (hr : t.isRecording = false) : stepFrame cfg t f = t := by
  simp [stepFrame, hr]

/-- Evaluation of one callback step on a speech-classified frame while
recording. -/
theorem stepFrame_speech (cfg : RecConfig) (t : RecState) (f : Frame)
    (hr : t.isRecording = true) (hc : classify f = true) :
    stepFrame cfg t f =
      { isRecording := if cfg.maxFrames ≤ t.frameCount + 1 then false else true
        buffer := t.buffer ++ [f.data]
        speechStarted := true
        silenceFrames := 0
        frameCount := t.frameCount + 1 } := by
  simp [stepFrame, hr, hc]

/-- Evaluation of one callback step on a silence-classified frame while
recording, after speech has started. -/
theorem stepFrame_silence_started (cfg : RecConfig) (t : RecState) (f : Frame)
    (hr : t.isRecording = true) (hc : classify f = false) (hs : t.speechStarted = true) :
    stepFrame cfg t f =
      { isRecording := if cfg.maxFrames ≤ t.frameCount + 1 then false
                       else if cfg.framesForSilence ≤ t.silenceFrames + 1 then false else true
        buffer := t.buffer ++ [f.data]
        speechStarted := true
        silenceFrames := t.silenceFrames + 1
        frameCount := t.frameCount + 1 } := by
  simp [stepFrame, hr, hc, hs]

/-- Evaluation of one callback step on a silence-classified frame while
recording, before any speech: the frame is discarded, only the counter
(and possibly the forced stop) changes. -/
theorem stepFrame_silence_not_started (cfg : RecConfig) (t : RecState) (f : Frame)
    (hr : t.isRecording = true) (hc : classify f = false) (hs : t.speechStarted = false) :
    stepFrame cfg t f =
      { isRecording := if cfg.maxFrames ≤ t.frameCount + 1 then false else true
        buffer := t.buffer
        speechStarted := false
        silenceFrames := t.silenceFrames
        frameCount := t.frameCount + 1 } := by
  simp [stepFrame, hr, hc, hs]

/-- C1: while a recording is already in progress (the controller is not
Idle), a second activation reaching `AudioRecorder.record` has no
observable effect: the call returns `None`, the recorder's state and audio
buffer are unchanged (the in-flight recording keeps running), and no second
input stream (frame source) is opened. -/
theorem record_while_busy_ignored (pre : RecorderState) (cfg : RecConfig)
    (frames : List Frame) (h : pre.isRecording = true) :
    record pre cfg frames =
      { segment := none, recorder := pre, openedStream := false } := by
  simp [record, h]

/-- Witness for `record_while_busy_ignored`: a concrete busy recorder. -/
theorem record_while_busy_ignored_witness :
    record { isRecording := true, audioBuffer := [7] }
        { framesForSilence := 30, maxFrames := 500 }
        [{ data := 1, vad := some true, level := 0 }] =
      { segment := none, recorder := { isRecording := true, audioBuffer := [7] },
        openedStream := false } :=
  record_while_busy_ignored _ _ _ rfl

set_option maxRecDepth 10000 in
/-- C2: with 30 ms frames and a 0.9 s (900 ms) silence threshold — 30
silence frames — feeding 20 speech-classified frames followed by 35
silence-classified frames yields exactly one successful segment of exactly
50 frames: the 20 speech frames plus 30 trailing silence frames; the last 5
silence frames arrive after the recording has stopped and are not
appended. -/
theorem speech_then_silence_segment :
    record { isRecording := false, audioBuffer := [] } (mkRecConfig (9 / 10) 15 30)
      (List.replicate 20 { data := 1, vad := some true, level := 0 } ++
        List.replicate 35 { data := 2, vad := some false, level := 0 }) =
    { segment := some (List.replicate 20 1 ++ List.replicate 30 2)
      recorder := { isRecording := false,
                    audioBuffer := List.replicate 20 1 ++ List.replicate 30 2 }
      openedStream := true } := by
  rw [mkRecConfig_eval]
  decide

/-- Bound-preservation of one callback step: the buffer never holds more
frames than were counted, the counter never passes `max_frames`, and while
the recording is live the counter is strictly below `max_frames`. -/
theorem stepFrame_bound (cfg : RecConfig) (t : RecState) (f : Frame)
    (h1 : t.buffer.length ≤ t.frameCount) (h2 : t.frameCount ≤ cfg.maxFrames)
    (h3 : t.isRecording = true → t.frameCount < cfg.maxFrames) :
    (stepFrame cfg t f).buffer.length ≤ (stepFrame cfg t f).frameCount ∧
      (stepFrame cfg t f).frameCount ≤ cfg.maxFrames ∧
      ((stepFrame cfg t f).isRecording = true →
        (stepFrame cfg t f).frameCount < cfg.maxFrames) := by
  by_cases hr : t.isRecording = true
  · have hlt := h3 hr
    by_cases hc : classify f = true
    · rw [stepFrame_speech cfg t f hr hc]
      refine ⟨?_, ?_, ?_⟩
      · show (t.buffer ++ [f.data]).length ≤ t.frameCount + 1
        simp only [List.length_append, List.length_cons, List.length_nil]
        omega
      · show t.frameCount + 1 ≤ cfg.maxFrames
        omega
      · intro hrec
        by_cases hm : cfg.maxFrames ≤ t.frameCount + 1
        · exact absurd hrec (by simp [hm])
        · show t.frameCount + 1 < cfg.maxFrames
          omega
    · have hc' : classify f = false := by simpa using hc
      by_cases hs : t.speechStarted = true
      · rw [stepFrame_silence_started cfg t f hr hc' hs]
        refine ⟨?_, ?_, ?_⟩
        · show (t.buffer ++ [f.data]).length ≤ t.frameCount + 1
          simp only [List.length_append, List.length_cons, List.length_nil]
          omega
        · show t.frameCount + 1 ≤ cfg.maxFrames
          omega
        · intro hrec
          by_cases hm : cfg.maxFrames ≤ t.frameCount + 1
          · exact absurd hrec (by simp [hm])
          · show t.frameCount + 1 < cfg.maxFrames
            omega
      · have hs' : t.speechStarted = false := by simpa using hs
        rw [stepFrame_silence_not_started cfg t f hr hc' hs']
        refine ⟨?_, ?_, ?_⟩
        · show t.buffer.length ≤ t.frameCount + 1
          omega
        · show t.frameCount + 1 ≤ cfg.maxFrames
          omega
        · intro hrec
          by_cases hm : cfg.maxFrames ≤ t.frameCount + 1
          · exact absurd hrec (by simp [hm])
          · show t.frameCount + 1 < cfg.maxFrames
            omega
  · have hr' : t.isRecording = false := by simpa using hr
    rw [stepFrame_not_recording cfg t f hr']
    exact ⟨h1, h2, h3⟩

/-- Projection of `record`'s returned segment when not already recording. -/
theorem record_segment_eq (pre : RecorderState) (cfg : RecConfig) (frames : List Frame)
    (h : pre.isRecording = false) :
    (record pre cfg frames).segment =
      (if (processFrames cfg initialRecState frames).buffer.isEmpty then none
       else some (processFrames cfg initialRecState frames).buffer) := by
  simp [record, h]

/-- Projection of the recorder's buffer after a `record` call that was not
already recording. -/
theorem record_buffer_eq (pre : RecorderState) (cfg : RecConfig) (frames : List Frame)
    (h : pre.isRecording = false) :
    (record pre cfg frames).recorder.audioBuffer =
      (processFrames cfg initialRecState frames).buffer := by
  simp [record, h]

/-- C3: the returned segment never holds more than
`max_duration * 1000 / frame_duration_ms` frames, whatever the speech or
silence classification of the input frames; moreover the frame counter is
incremented on every processed frame regardless of its classification, and
the recording force-terminates when the counter reaches the maximum. -/
theorem segment_length_le_max (cfg : RecConfig) (frames : List Frame) (seg : List Nat)
    (hmax : 1 ≤ cfg.maxFrames)
    (hseg : (record { isRecording := false, audioBuffer := [] } cfg frames).segment
      = some seg) :
    seg.length ≤ cfg.maxFrames ∧
      ∀ (t : RecState) (f : Frame), t.isRecording = true →
        (stepFrame cfg t f).frameCount = t.frameCount + 1 ∧
          (cfg.maxFrames ≤ t.frameCount + 1 → (stepFrame cfg t f).isRecording = false) := by
  have hcount : ∀ (t : RecState) (f : Frame), t.isRecording = true →
      (stepFrame cfg t f).frameCount = t.frameCount + 1 ∧
        (cfg.maxFrames ≤ t.frameCount + 1 → (stepFrame cfg t f).isRecording = false) := by
    intro t f hr
    by_cases hc : classify f = true
    · rw [stepFrame_speech cfg t f hr hc]
      exact ⟨rfl, fun hm => by simp [hm]⟩
    · have hc' : classify f = false := by simpa using hc
      by_cases hs : t.speechStarted = true
      · rw [stepFrame_silence_started cfg t f hr hc' hs]
        exact ⟨rfl, fun hm => by simp [hm]⟩
      · have hs' : t.speechStarted = false := by simpa using hs
        rw [stepFrame_silence_not_started cfg t f hr hc' hs']
        exact ⟨rfl, fun hm => by simp [hm]⟩
  refine ⟨?_, hcount⟩
  have key := processFrames_inv cfg
    (fun t => t.buffer.length ≤ t.frameCount ∧ t.frameCount ≤ cfg.maxFrames ∧
      (t.isRecording = true → t.frameCount < cfg.maxFrames))
    frames initialRecState
    (fun t f _ ht => stepFrame_bound cfg t f ht.1 ht.2.1 ht.2.2)
    ⟨by simp [initialRecState], by simp [initialRecState], fun _ => hmax⟩
  rw [record_segment_eq _ _ _ rfl] at hseg
  by_cases hb : (processFrames cfg initialRecState frames).buffer.isEmpty
  · rw [if_pos hb] at hseg
    exact absurd hseg (by simp)
  · rw [if_neg hb] at hseg
    obtain rfl := Option.some.inj hseg
    exact le_trans key.1 key.2.1

/-- Witness for `segment_length_le_max`: a single speech frame under the
30-frame / 500-frame configuration yields a one-frame segment. -/
theorem segment_length_le_max_witness :
    ([1] : List Nat).length ≤ 500 ∧
      ∀ (t : RecState) (f : Frame), t.isRecording = true →
        (stepFrame { framesForSilence := 30, maxFrames := 500 } t f).frameCount
            = t.frameCount + 1 ∧
          (500 ≤ t.frameCount + 1 →
            (stepFrame { framesForSilence := 30, maxFrames := 500 } t f).isRecording
              = false) :=
  segment_length_le_max { framesForSilence := 30, maxFrames := 500 }
    [{ data := 1, vad := some true, level := 0 }] [1] (by norm_num) (by decide)

/-- C4: over a frame sequence in which no frame is ever classified as
speech, `record` never returns a segment (in particular never an empty
one): pre-speech silence frames are discarded without being appended, the
buffer stays empty, and the call returns `None` at close. -/
theorem all_silence_returns_none (cfg : RecConfig) (frames : List Frame)
    (hsil : ∀ f ∈ frames, classify f = false) :
    (record { isRecording := false, audioBuffer := [] } cfg frames).segment = none ∧
      (record { isRecording := false, audioBuffer := [] } cfg frames).recorder.audioBuffer
        = [] := by
  have key := processFrames_inv cfg
    (fun t => t.speechStarted = false ∧ t.buffer = [])
    frames initialRecState
    (fun t f hf ht => by
      have hc : classify f = false := hsil f hf
      by_cases hr : t.isRecording = true
      · rw [stepFrame_silence_not_started cfg t f hr hc ht.1]
        exact ⟨rfl, ht.2⟩
      · have hr' : t.isRecording = false := by simpa using hr
        rw [stepFrame_not_recording cfg t f hr']
        exact ht)
    ⟨rfl, rfl⟩
  constructor
  · rw [record_segment_eq _ _ _ rfl, key.2]
    rfl
  · rw [record_buffer_eq _ _ _ rfl, key.2]

/-- Witness for `all_silence_returns_none`: one silence-classified frame. -/
theorem all_silence_returns_none_witness :
    (record { isRecording := false, audioBuffer := [] }
        { framesForSilence := 30, maxFrames := 500 }
        [{ data := 2, vad := some false, level := 0 }]).segment = none ∧
      (record { isRecording := false, audioBuffer := [] }
          { framesForSilence := 30, maxFrames := 500 }
          [{ data := 2, vad := some false, level := 0 }]).recorder.audioBuffer = [] :=
  all_silence_returns_none { framesForSilence := 30, maxFrames := 500 }
    [{ data := 2, vad := some false, level := 0 }] (by decide)

/-- Refutation of C5 as stated: a frame on which the voice-activity
classifier raises is NOT treated as silence — the code falls back to the
energy threshold `level > 0.01`, so a failing frame with mean level 0.5 is
classified as speech, starts a segment and is appended to it (had it been
treated as silence before speech start, it would have been discarded and
the recording would return `None`). -/
theorem classifier_failure_counterexample :
    classify { data := 1, vad := none, level := 1 / 2 } = true ∧
      (record { isRecording := false, audioBuffer := [] }
          { framesForSilence := 30, maxFrames := 500 }
          [{ data := 1, vad := none, level := 1 / 2 }]).segment = some [1] := by
  have hc : classify { data := 1, vad := none, level := 1 / 2 } = true := by
    simp only [classify, decide_eq_true_eq]
    norm_num
  refine ⟨hc, ?_⟩
  have h1 : processFrames { framesForSilence := 30, maxFrames := 500 } initialRecState
      [{ data := 1, vad := none, level := 1 / 2 }] =
      { isRecording := true, buffer := [1], speechStarted := true,
        silenceFrames := 0, frameCount := 1 } := by
    rw [processFrames, List.foldl_cons, List.foldl_nil, stepFrame_speech _ _ _ rfl hc]
    norm_num [initialRecState]
  rw [record_segment_eq _ _ _ rfl, h1]
  rfl

/-- Congruence of one callback step: the step reads a frame only through
its PCM bytes and its speech/silence classification. -/
theorem stepFrame_congr (cfg : RecConfig) (s : RecState) (f g : Frame)
    (hd : f.data = g.data) (hc : classify f = classify g) :
    stepFrame cfg s f = stepFrame cfg s g := by
  simp only [stepFrame, hd, hc]

/-- C5 as amended: a frame on which the classifier raises falls back to the
energy threshold `level > 0.01` (speech exactly when the mean level exceeds
0.01); the failure is contained to that single frame — replacing the
failing frame by a frame with the same audio and its computed fallback
classification leaves the whole endpointing run, including every other
frame and the segment in progress, unchanged — and the run is never
aborted by the failure. -/
theorem classifier_failure_fail_open :
    (∀ (d : Nat) (l : ℚ),
        classify { data := d, vad := none, level := l } = decide ((1 : ℚ) / 100 < l)) ∧
      ∀ (cfg : RecConfig) (s : RecState) (pre post : List Frame) (f : Frame),
        processFrames cfg s (pre ++ f :: post) =
          processFrames cfg s
            (pre ++ { data := f.data, vad := some (classify f), level := f.level } :: post) := by
  constructor
  · intro d l
    rfl
  · intro cfg s pre post f
    simp only [processFrames, List.foldl_append, List.foldl_cons]
    rw [stepFrame_congr cfg _ f
      { data := f.data, vad := some (classify f), level := f.level } rfl rfl]

/-- Helper for the sentence splitter: when the scan finds the first
terminator at index `i`, the prefix cut at `i + 1` ends with a
sentence-terminating character. -/
theorem findEnding_take (b : Text) :
    ∀ i, findEnding b = some i →
      ∃ q c, b.take (i + 1) = q ++ [c] ∧ isEnding c = true := by
  induction b with
  | nil =>
    intro i h
    simp [findEnding] at h
  | cons c t ih =>
    intro i h
    by_cases hc : isEnding c = true
    · simp only [findEnding, hc, if_true] at h
      obtain rfl : (0 : Nat) = i := Option.some.inj h
      exact ⟨[], c, by simp, hc⟩
    · simp only [findEnding, hc, if_false, Bool.false_eq_true] at h
      cases ht : findEnding t with
      | none =>
        rw [ht] at h
        simp at h
      | some j =>
        rw [ht] at h
        simp only [Option.map_some'] at h
        obtain rfl : j + 1 = i := Option.some.inj h
        obtain ⟨q, e, hq, he⟩ := ih j ht
        refine ⟨c :: q, e, ?_, he⟩
        simp [List.take_succ_cons, hq]

/-- The pieces of the split concatenate, in order, to the whole streamed
text: nothing is lost, duplicated or reordered. -/
theorem streamPieces_join (chunks : List Text) :
    ∀ buf : Text,
      (streamPieces buf chunks).1.flatten ++ (streamPieces buf chunks).2
        = buf ++ chunks.flatten := by
  induction chunks with
  | nil =>
    intro buf
    simp [streamPieces]
  | cons chunk rest ih =>
    intro buf
    cases h : findEnding (buf ++ chunk) with
    | none =>
      simp only [streamPieces, h]
      rw [ih (buf ++ chunk)]
      simp [List.append_assoc]
    | some i =>
      simp only [streamPieces, h, List.flatten_cons]
      rw [List.append_assoc, ih ((buf ++ chunk).drop (i + 1)), ← List.append_assoc,
        List.take_append_drop]
      simp [List.append_assoc]

/-- The spoken sentences are exactly the stripped pieces of the split, in
order, with empty strips skipped and the end-of-stream remainder last. -/
theorem streamPieces_spoken (chunks : List Text) :
    ∀ buf : Text,
      speakStreamingFrom buf chunks =
        ((streamPieces buf chunks).1.map pyStrip).filter (fun t => !t.isEmpty) ++
          (if (pyStrip (streamPieces buf chunks).2).isEmpty then []
           else [pyStrip (streamPieces buf chunks).2]) := by
  induction chunks with
  | nil =>
    intro buf
    simp only [speakStreamingFrom, streamPieces, List.map_nil, List.filter_nil,
      List.nil_append]
  | cons chunk rest ih =>
    intro buf
    cases h : findEnding (buf ++ chunk) with
    | none =>
      simp only [speakStreamingFrom, streamPieces, h]
      exact ih (buf ++ chunk)
    | some i =>
      simp only [speakStreamingFrom, streamPieces, h, List.map_cons, List.filter_cons]
      rw [ih ((buf ++ chunk).drop (i + 1))]
      by_cases hemp : (pyStrip ((buf ++ chunk).take (i + 1))).isEmpty
      · simp [hemp]
      · simp [hemp]

/-- Every piece the splitter closes before the end of the stream ends with
a sentence-terminating character: the text is split exactly at
terminators. -/
theorem streamPieces_ends (chunks : List Text) :
    ∀ (buf : Text), ∀ p ∈ (streamPieces buf chunks).1,
      ∃ q c, p = q ++ [c] ∧ isEnding c = true := by
  induction chunks with
  | nil =>
    intro buf p hp
    simp [streamPieces] at hp
  | cons chunk rest ih =>
    intro buf p hp
    cases h : findEnding (buf ++ chunk) with
    | none =>
      simp only [streamPieces, h] at hp
      exact ih _ p hp
    | some i =>
      simp only [streamPieces, h, List.mem_cons] at hp
      rcases hp with rfl | hp
      · exact findEnding_take (buf ++ chunk) i h
      · exact ih _ p hp

/-- C8: the streamed reply text is split exactly at the
sentence-terminating characters '.', '!', '?', ';' or at end of stream —
the split pieces concatenate in order to exactly the emitted text, every
piece closed before end of stream ends with a terminator, the stripped
non-empty pieces are handed to playback in exactly that (emission) order,
and the non-empty end-of-stream remainder is spoken last. -/
theorem speak_streaming_order (chunks : List Text) :
    (streamPieces [] chunks).1.flatten ++ (streamPieces [] chunks).2 = chunks.flatten ∧
      speak_streaming chunks =
        ((streamPieces [] chunks).1.map pyStrip).filter (fun t => !t.isEmpty) ++
          (if (pyStrip (streamPieces [] chunks).2).isEmpty then []
           else [pyStrip (streamPieces [] chunks).2]) ∧
      ∀ p ∈ (streamPieces [] chunks).1, ∃ q c, p = q ++ [c] ∧ isEnding c = true := by
  refine ⟨?_, ?_, ?_⟩
  · simpa using streamPieces_join chunks []
  · exact streamPieces_spoken chunks []
  · exact streamPieces_ends chunks []

/-- Refutation of C6 as stated: the listener loop has no pausing mechanism —
two consecutive positively-matching frames arriving during one in-progress
turn invoke the activation callback twice, not at most once. -/
theorem wake_word_retrigger_counterexample :
    listenLoopActivations
        [{ stopSet := false, keywordIndex := 0 },
         { stopSet := false, keywordIndex := 0 }] = 2 := by
  decide

/-- C6 as amended: the activation callback is invoked exactly once per
positively-matching frame, but keyword scanning is never paused — while the
stop event stays clear, every further positive match (including matches
during an in-progress turn) invokes the callback again, so the number of
invocations equals the number of matching frames. -/
theorem wake_word_once_per_match (fs : List WakeFrame)
    (h : ∀ f ∈ fs, f.stopSet = false) :
    listenLoopActivations fs =
      (fs.filter (fun f => decide (0 ≤ f.keywordIndex))).length := by
  induction fs with
  | nil => simp [listenLoopActivations]
  | cons f rest ih =>
    have hf : f.stopSet = false := h f (by simp)
    have hrest := ih (fun g hg => h g (by simp [hg]))
    by_cases hk : (0 : Int) ≤ f.keywordIndex
    · simp [listenLoopActivations, hf, hk, hrest]
      try omega
    · simp [listenLoopActivations, hf, hk, hrest]
      try omega

/-- Witness for `wake_word_once_per_match`: a matching and a non-matching
frame with the stop event clear give exactly one invocation. -/
theorem wake_word_once_per_match_witness :
    listenLoopActivations
        [{ stopSet := false, keywordIndex := 3 },
         { stopSet := false, keywordIndex := -1 }] =
      (([{ stopSet := false, keywordIndex := 3 },
          { stopSet := false, keywordIndex := -1 }] : List WakeFrame).filter
        (fun f => decide (0 ≤ f.keywordIndex))).length :=
  wake_word_once_per_match _ (by decide)

/-- Refutation of C7 as stated: the utterance "stop" matches the
exit-command list before the stop-speaking branch is consulted, so it takes
the goodbye-and-shutdown path — `VoiceAssistant.stop()` clears `_running`
and the `run_async` main loop terminates — instead of merely halting
playback and leaving the controller usable for the next activation. -/
theorem stop_utterance_counterexample :
    processSpeechDecision "stop".data = SpeechDecision.exitAssistant ∧
      (applyDecision (processSpeechDecision "stop".data)
          { running := true
            tts := { stopEventSet := false, musicPlaying := true, isSpeaking := true }
            wakeListening := true }).running = false :=
  ⟨by decide, by decide⟩

/-- C7 as amended: only the stop-speaking utterances that are not also exit
commands ("tais-toi", "shut up") halt in-flight playback and leave the main
loop running, usable for the next activation; the utterances "stop" (and
"arrête") are matched by the exit-command list first and shut the whole
assistant down: `_running` is cleared and the main loop terminates. -/
theorem stop_utterance_dispatch :
    processSpeechDecision "tais-toi".data = SpeechDecision.stopSpeaking ∧
      processSpeechDecision "shut up".data = SpeechDecision.stopSpeaking ∧
      processSpeechDecision "stop".data = SpeechDecision.exitAssistant ∧
      processSpeechDecision "arrête".data = SpeechDecision.exitAssistant ∧
      (∀ s : AssistantState,
        (applyDecision SpeechDecision.stopSpeaking s).running = s.running ∧
          (applyDecision SpeechDecision.stopSpeaking s).tts = ttsStop s.tts) ∧
      ∀ s : AssistantState, (applyDecision SpeechDecision.exitAssistant s).running = false := by
  refine ⟨by decide, by decide, by decide, by decide, ?_, ?_⟩
  · intro s
    exact ⟨rfl, rfl⟩
  · intro s
    rfl

/-- C9: `TextToSpeech.stop` is idempotent — a second stop leaves the sink
in exactly the state one stop produces: stop flag set, playback halted,
`is_speaking` false — and calling stop when nothing is playing is harmless,
yielding that same stopped state. -/
theorem tts_stop_idempotent (s : TTSState) :
    ttsStop (ttsStop s) = ttsStop s ∧ (ttsStop s).stopEventSet = true ∧
      (ttsStop s).musicPlaying = false ∧ (ttsStop s).isSpeaking = false :=
  ⟨rfl, rfl, rfl, rfl⟩

/-- Refutation of C10 as stated: with `max_history = 0` the Python slice
`_messages[-0:]` is the whole list, so after a single added message
`messages_for_llm` returns three messages (the system message twice
followed by the added message), exceeding `max_history + 1 = 1`. -/
theorem messages_for_llm_counterexample :
    messages_for_llm 0
        (conversationMessages "prompt".data
          [{ role := Role.user, content := "hi".data }]) =
      [{ role := Role.system, content := "prompt".data },
       { role := Role.system, content := "prompt".data },
       { role := Role.user, content := "hi".data }] := by
  decide

/-- C10 as amended (restricted to `max_history ≥ 1`; the repository's
default is 20): for a manager constructed with a non-empty system prompt
and any sequence of added messages, `messages_for_llm` returns at most
`max_history + 1` messages, its first element is the system-prompt message,
and the remaining elements are exactly the most recently added messages in
their original insertion order. -/
theorem messages_for_llm_window (sysPrompt : Text) (maxHistory : Nat)
    (adds : List Message) (hsys : sysPrompt.isEmpty = false) (hmh : 1 ≤ maxHistory) :
    messages_for_llm maxHistory (conversationMessages sysPrompt adds) =
      { role := Role.system, content := sysPrompt } ::
        adds.drop (adds.length - maxHistory) ∧
      (messages_for_llm maxHistory (conversationMessages sysPrompt adds)).length
        ≤ maxHistory + 1 := by
  have hmsgs : conversationMessages sysPrompt adds =
      { role := Role.system, content := sysPrompt } :: adds := by
    simp [conversationMessages, hsys]
  have heq : messages_for_llm maxHistory
      ({ role := Role.system, content := sysPrompt } :: adds) =
      { role := Role.system, content := sysPrompt } ::
        adds.drop (adds.length - maxHistory) := by
    by_cases hle :
        ({ role := Role.system, content := sysPrompt } :: adds).length ≤ maxHistory + 1
    · rw [messages_for_llm, if_pos hle]
      have hz : adds.length - maxHistory = 0 := by
        simp only [List.length_cons] at hle
        omega
      rw [hz, List.drop_zero]
    · rw [messages_for_llm, if_neg hle]
      have hlen : maxHistory < adds.length := by
        simp only [List.length_cons] at hle
        omega
      have hk : maxHistory ≠ 0 := by omega
      rw [pySliceLast, if_neg hk]
      have harith : ({ role := Role.system, content := sysPrompt } :: adds).length - maxHistory
          = (adds.length - maxHistory) + 1 := by
        simp only [List.length_cons]
        omega
      rw [harith, List.drop_succ_cons]
      rfl
  rw [hmsgs, heq]
  refine ⟨rfl, ?_⟩
  simp only [List.length_cons, List.length_drop]
  omega

/-- Witness for `messages_for_llm_window`: prompt "p", window 1, two added
messages — the system message plus only the most recent one is returned. -/
theorem messages_for_llm_window_witness :
    messages_for_llm 1 (conversationMessages "p".data
        [{ role := Role.user, content := "a".data },
         { role := Role.assistant, content := "b".data }]) =
      { role := Role.system, content := "p".data } ::
        ([{ role := Role.user, content := "a".data },
          { role := Role.assistant, content := "b".data }] : List Message).drop
          (([{ role := Role.user, content := "a".data },
             { role := Role.assistant, content := "b".data }] : List Message).length - 1) ∧
      (messages_for_llm 1 (conversationMessages "p".data
          [{ role := Role.user, content := "a".data },
           { role := Role.assistant, content := "b".data }])).length ≤ 1 + 1 :=
  messages_for_llm_window "p".data 1 _ (by decide) (by decide)

end VoiceBot
